import Mathlib

/-!
Verification development for the Minecraft-AFK-Bot-Manager session supervisor
(`src/MinecraftBot.js`, current revision of the `MinecraftBot` class).

The per-slot supervisor state and its operations are embedded shallowly:
JavaScript timers become Boolean "armed" flags (an `Option Nat` for the
reconnect timer, remembering the scheduled delay), the mineflayer handle
becomes a Boolean presence flag, entity positions become integer triples
(`distanceTo(p) <= d` is compared via squared distances), and each event
handler / interval callback becomes a pure state-transition function.
JavaScript falsy-default expressions (`x || d`) are modelled by `jsOr`
with `0` (resp. `none`) playing the role of an unset value.
-/

namespace AFKBot

/-- A world position (mineflayer `Vec3`).  Coordinates are modelled on the
integer grid; every distance threshold in the source is an integer, and
`distanceTo` comparisons against a threshold are decided on squared
distances, so the square root never has to be computed. -/
structure Vec3 where
  x : ℤ
  y : ℤ
  z : ℤ
deriving DecidableEq

/-- Squared Euclidean distance between two positions. -/
def sqDist (a b : Vec3) : ℤ :=
  (a.x - b.x) * (a.x - b.x) + (a.y - b.y) * (a.y - b.y) + (a.z - b.z) * (a.z - b.z)

/-- `a.distanceTo b <= d` for a nonnegative threshold `d`,
decided on squared distances. -/
def distLE (a b : Vec3) (d : ℤ) : Bool :=
  decide (sqDist a b ≤ d * d)

/-- `a.distanceTo b > d` for a nonnegative threshold `d`. -/
def distGT (a b : Vec3) (d : ℤ) : Bool :=
  decide (d * d < sqDist a b)

/-- `a.distanceTo b < d` for a nonnegative threshold `d`. -/
def distLT (a b : Vec3) (d : ℤ) : Bool :=
  decide (sqDist a b < d * d)

/-- The `this.status` string field of the supervisor. -/
inductive Status where
  | offline
  | connecting
  | online
  | kicked
  | error
  | failed
deriving DecidableEq

/-- JavaScript `x || d` on numbers where `0` encodes an unset value. -/
def jsOr (x d : Nat) : Nat :=
  if x = 0 then d else x

/-- JavaScript `x || d` on an integer where `0` encodes an unset value. -/
def jsOrZ (x d : ℤ) : ℤ :=
  if x = 0 then d else x

/-- JavaScript `x || d` where `x` may be `null` (and `0` is falsy too). -/
def jsOrOpt (x : Option Nat) (d : Nat) : Nat :=
  match x with
  | none => d
  | some v => jsOr v d

/-- `config.settings.protection` sub-object. -/
structure ProtectionSettings where
  enabled : Bool
  emergencyDistance : ℤ
  blockType : String
  radius : ℤ
  breakDelay : Nat
deriving DecidableEq

/-- The parts of `config.settings` consumed by the supervisor. -/
structure Settings where
  autoReconnect : Bool
  maxReconnectAttempts : Nat
  reconnectDelay : Nat
  antiAfkEnabled : Bool
  antiAfkInterval : Nat
  proximityAlertEnabled : Bool
  alertDistance : ℤ
  alertCooldown : Nat
  alertWhitelist : List String
  protection : Option ProtectionSettings

/-- Global config plus the slot's account username
(`this.accountConfig.username`). -/
structure Config where
  settings : Settings
  username : String

/-- Effective emergency distance:
`this.config.settings.protection?.emergencyDistance || 10`. -/
def effEmergencyDistance (cfg : Config) : ℤ :=
  match cfg.settings.protection with
  | none => 10
  | some p => jsOrZ p.emergencyDistance 10

/-- Effective alert distance: `this.config.settings.alertDistance || 96`. -/
def effAlertDistance (cfg : Config) : ℤ :=
  jsOrZ cfg.settings.alertDistance 96

/-- Effective alert cooldown: `this.config.settings.alertCooldown || 300000`. -/
def effAlertCooldown (cfg : Config) : Nat :=
  jsOr cfg.settings.alertCooldown 300000

/-- The `_cachedWhitelist.includes(username.toLowerCase())` check
(the whitelist is lower-cased once in the constructor). -/
def isWhitelisted (cfg : Config) (u : String) : Bool :=
  (cfg.settings.alertWhitelist.map String.toLower).contains u.toLower

/-- Mutable per-slot supervisor state (the fields of `MinecraftBot`).
Interval/timeout handles are modelled as armed-flags; `reconnectTimeout`
remembers the delay of the pending reconnect, `none` when no timer is set. -/
structure BotState where
  status : Status
  isPaused : Bool
  isConnecting : Bool
  isManuallyStopped : Bool
  reconnectAttempts : Nat
  bot : Bool
  antiAfkInterval : Bool
  proximityInterval : Bool
  autoEatTimeout : Bool
  inventoryMonitorInterval : Bool
  lobbyRetryInterval : Bool
  reconnectTimeout : Option Nat
  tempReconnectDelay : Option Nat
  alertCooldowns : String → Nat
  protectionEnabled : Bool
  isInLobby : Bool
  lastPosition : Option Vec3
  isEating : Bool
  eatTimeoutCount : Nat
  protectionRunning : Bool
  sneak : Bool
  alertsTriggered : Nat
  lobbyEvents : Nat

/-- Observable effects emitted towards the fleet coordinator / notification
sink during one handler invocation. -/
inductive Out where
  | proximityNotify (username : String)
  | alertBurst (username : String) (count : Nat)
  | protectionTrigger
  | lobbyNotify (entered : Bool)
deriving DecidableEq

/-- `stopLobbyRetry()`: clear the lobby retry interval. -/
def stopLobbyRetry (s : BotState) : BotState :=
  { s with lobbyRetryInterval := false }

/-- `cleanup()`: cancel all four background timers, leave lobby mode,
drop the connection handle and go `offline`. -/
def cleanup (s : BotState) : BotState :=
  let s := { s with antiAfkInterval := false, proximityInterval := false,
                    autoEatTimeout := false, inventoryMonitorInterval := false }
  let s := stopLobbyRetry s
  { s with isInLobby := false, bot := false, status := .offline }

/-- `stop()`: set the manual-stop flag, cancel any pending reconnect timer,
request `bot.quit()` (external), run `cleanup()`, return `true`. -/
def stop (s : BotState) : BotState × Bool :=
  let s := { s with isManuallyStopped := true, reconnectTimeout := none }
  (cleanup s, true)

/-- `start()`: refuse when already connecting or holding a live handle,
otherwise clear the manual-stop flag, go `connecting` and open the client.
The Boolean is the method's return value. -/
def start (s : BotState) : BotState × Bool :=
  if s.isConnecting then (s, false)
  else if s.bot then (s, false)
  else ({ s with isConnecting := true, isManuallyStopped := false,
                 status := .connecting, bot := true }, true)

/-- `handleReconnect()`: skipped entirely when manually stopped; on exhausted
attempts go `failed` without scheduling; otherwise increment the attempt
counter and schedule `start()` after the one-shot override or the flat
configured delay (`tempReconnectDelay || reconnectDelay || 5000`). -/
def handleReconnect (cfg : Config) (s : BotState) : BotState :=
  if s.isManuallyStopped then s
  else if cfg.settings.maxReconnectAttempts ≤ s.reconnectAttempts then
    { s with status := .failed }
  else
    { s with reconnectAttempts := s.reconnectAttempts + 1,
             tempReconnectDelay := none,
             reconnectTimeout :=
               some (jsOrOpt s.tempReconnectDelay (jsOr cfg.settings.reconnectDelay 5000)) }

/-- `toggleProtection(forceState = null)`: with an explicit Boolean set the
flag to it, otherwise negate it; return the new value. -/
def toggleProtection (forceState : Option Bool) (s : BotState) : BotState × Bool :=
  match forceState with
  | some b => ({ s with protectionEnabled := b }, b)
  | none => ({ s with protectionEnabled := !s.protectionEnabled }, !s.protectionEnabled)

/-- Character-list version of `startsWith`. -/
def startsWithL : List Char → List Char → Bool
  | _, [] => true
  | [], _ :: _ => false
  | a :: as, b :: bs => a = b && startsWithL as bs

/-- Whether `needle` occurs contiguously inside `hay`. -/
def hasSubL (needle : List Char) : List Char → Bool
  | [] => needle.isEmpty
  | c :: rest => startsWithL (c :: rest) needle || hasSubL needle rest

/-- JavaScript `hay.includes(needle)` on strings. -/
def strIncludes (hay needle : String) : Bool :=
  hasSubL needle.toList hay.toList

/-- The `login` handler: go online, reset the attempt counter, re-engage
sneak, arm anti-AFK / proximity per the policy flags, start auto-eat and
the inventory monitor. -/
def onLogin (cfg : Config) (s : BotState) : BotState :=
  let s := { s with status := .online, isConnecting := false,
                    reconnectAttempts := 0, sneak := true }
  let s := if cfg.settings.antiAfkEnabled then { s with antiAfkInterval := true } else s
  let s := if cfg.settings.proximityAlertEnabled then { s with proximityInterval := true } else s
  { s with autoEatTimeout := true, inventoryMonitorInterval := true }

/-- The `end` handler: run `cleanup()` and, when auto-reconnect is enabled
and the slot is not paused, `handleReconnect()`. -/
def onEnd (cfg : Config) (s : BotState) : BotState :=
  let s := cleanup { s with isConnecting := false }
  if cfg.settings.autoReconnect && !s.isPaused then handleReconnect cfg s else s

/-- The `kicked` handler: go `kicked`; a duplicate-session reason installs
the one-shot 6000 ms reconnect-delay override. -/
def onKicked (reason : String) (s : BotState) : BotState :=
  let s := { s with isConnecting := false, status := .kicked }
  if strIncludes reason "already online" || strIncludes reason "already connected" then
    { s with tempReconnectDelay := some 6000 }
  else s

/-- The `error` handler. -/
def onError (s : BotState) : BotState :=
  { s with isConnecting := false, status := .error }

/-- `pause()`. -/
def pause (s : BotState) : BotState × Bool :=
  if !s.bot then (s, false) else ({ s with isPaused := true }, true)

/-- `resume()`. -/
def resume (s : BotState) : BotState × Bool :=
  if !s.bot then (s, false) else ({ s with isPaused := false }, true)

/-- `enterLobbyMode()`: idempotent entry; suspend proximity and anti-AFK
timers, notify observers, start the `/home` retry loop. -/
def enterLobbyMode (s : BotState) : BotState × List Out :=
  if s.isInLobby then (s, [])
  else
    let s := { s with isInLobby := true, lobbyEvents := s.lobbyEvents + 1,
                      proximityInterval := false, antiAfkInterval := false }
    ({ s with lobbyRetryInterval := true }, [.lobbyNotify true])

/-- `exitLobbyMode()`: clear lobby mode, cancel the retry loop, notify,
re-arm anti-AFK / proximity per the policy flags. -/
def exitLobbyMode (cfg : Config) (s : BotState) : BotState × List Out :=
  let s := stopLobbyRetry { s with isInLobby := false }
  let s := if cfg.settings.antiAfkEnabled then { s with antiAfkInterval := true } else s
  let s := if cfg.settings.proximityAlertEnabled then { s with proximityInterval := true } else s
  (s, [.lobbyNotify false])

/-- The `spawn` handler, given the entity position reported at the spawn:
re-apply sneak; enter lobby mode on a >200 jump from `lastPosition`;
exit lobby mode when back within 50 of it; record `lastPosition` only
while not in lobby mode. -/
def onSpawn (cfg : Config) (cur : Vec3) (s : BotState) : BotState × List Out :=
  let s := { s with sneak := true }
  match s.lastPosition with
  | some lp =>
    if distGT lp cur 200 && !s.isInLobby then enterLobbyMode s
    else
      let r := if s.isInLobby && distLT lp cur 50 then exitLobbyMode cfg s else (s, [])
      if !r.1.isInLobby then ({ r.1 with lastPosition := some cur }, r.2) else r
  | none =>
    if !s.isInLobby then ({ s with lastPosition := some cur }, []) else (s, [])

/-- Outcome of one equip-and-consume attempt as observed by the
`checkFood` callback. -/
inductive EatOutcome where
  | success
  | timeout
  | otherError
deriving DecidableEq

/-- What the world reports to one `checkFood` tick: the food level, whether
the inventory holds an item of the sustenance set, and how the
equip-and-consume attempt ends. -/
structure EatEnv where
  food : Nat
  hasFoodItem : Bool
  outcome : EatOutcome

/-- One tick of the auto-eat loop (`checkFood`).  Returns the new state and
the delay until the next tick (`nextDelay`, base 5000 ms). -/
def autoEatTick (env : EatEnv) (s : BotState) : BotState × Nat :=
  if !s.bot || s.status ≠ .online || s.isPaused then (s, 5000)
  else if env.food < 14 then
    if env.hasFoodItem then
      match env.outcome with
      | .success => ({ s with isEating := false, eatTimeoutCount := 0 }, 5000)
      | .timeout =>
        let s := { s with isEating := false, eatTimeoutCount := s.eatTimeoutCount + 1 }
        (s, if 3 < s.eatTimeoutCount then 60000 else 30000)
      | .otherError => ({ s with isEating := false }, 10000)
    else (s, 5000)
  else (s, 5000)

/-- A nearby entity as reported by `this.bot.entities`. -/
structure Entity where
  etype : String
  username : String
  position : Option Vec3
deriving DecidableEq

/-- The entity scan inside the proximity-check callback, walking the entity
list in iteration order: skip non-players, self, whitelisted identities and
entities without a position; on an entity within the emergency distance
notify once, clear the protection guard and `stop()` (short-circuiting the
scan); otherwise fire a cooldown-gated alert burst of five notifications,
optionally triggering the protection sequence first. -/
def scanEntities (cfg : Config) (now : Nat) (selfPos : Vec3) :
    List Entity → BotState → BotState × List Out
  | [], s => (s, [])
  | e :: rest, s =>
    if e.etype ≠ "player" || e.username = cfg.username then
      scanEntities cfg now selfPos rest s
    else if isWhitelisted cfg e.username then
      scanEntities cfg now selfPos rest s
    else
      match e.position with
      | none => scanEntities cfg now selfPos rest s
      | some pos =>
        if distLE selfPos pos (effEmergencyDistance cfg) && !isWhitelisted cfg e.username then
          ((stop { s with protectionRunning := false }).1, [.proximityNotify e.username])
        else if distLE selfPos pos (effAlertDistance cfg) then
          if effAlertCooldown cfg < now - s.alertCooldowns e.username then
            let trig := cfg.settings.protection.isSome && s.protectionEnabled
            let s := { s with
              alertCooldowns := fun u => if u = e.username then now else s.alertCooldowns u,
              alertsTriggered := s.alertsTriggered + 1 }
            let r := scanEntities cfg now selfPos rest s
            (r.1, (if trig then [Out.protectionTrigger] else []) ++ [.alertBurst e.username 5] ++ r.2)
          else scanEntities cfg now selfPos rest s
        else scanEntities cfg now selfPos rest s

/-- One tick of the proximity-check interval: a no-op unless the slot is
online, unpaused, out of lobby mode and holding a connection handle. -/
def proximityTick (cfg : Config) (now : Nat) (selfPos : Vec3)
    (entities : List Entity) (s : BotState) : BotState × List Out :=
  if !s.bot || s.status ≠ .online || s.isPaused || s.isInLobby then (s, [])
  else scanEntities cfg now selfPos entities s

/-- Events a slot can process without an operator `start()`/`restart()`:
connection lifecycle events, the reconnect timer firing, a proximity tick,
and the non-starting operator commands. -/
inductive Ev where
  | login
  | spawnAt (p : Vec3)
  | endConn
  | kicked (reason : String)
  | errored
  | reconnectFire
  | proxTick (now : Nat) (selfPos : Vec3) (entities : List Entity)
  | stopCmd
  | pauseCmd
  | resumeCmd

/-- One event-handling step.  The Boolean records whether this step invoked
`start()` (the reconnect timer's callback is the only such site here; it
fires only when a timer is pending and re-checks the manual-stop flag). -/
def step (cfg : Config) (s : BotState) : Ev → BotState × Bool
  | .login => (onLogin cfg s, false)
  | .spawnAt p => ((onSpawn cfg p s).1, false)
  | .endConn => (onEnd cfg s, false)
  | .kicked r => (onKicked r s, false)
  | .errored => (onError s, false)
  | .reconnectFire =>
    match s.reconnectTimeout with
    | none => (s, false)
    | some _ =>
      let s := { s with reconnectTimeout := none }
      if s.isManuallyStopped then (s, false)
      else ((start s).1, true)
  | .proxTick now selfPos entities => ((proximityTick cfg now selfPos entities s).1, false)
  | .stopCmd => ((stop s).1, false)
  | .pauseCmd => ((pause s).1, false)
  | .resumeCmd => ((resume s).1, false)

/-- Process a list of events in order; the Boolean records whether any step
invoked `start()`. -/
def run (cfg : Config) : BotState → List Ev → BotState × Bool
  | s, [] => (s, false)
  | s, e :: rest =>
    let r := step cfg s e
    let r2 := run cfg r.1 rest
    (r2.1, r.2 || r2.2)

/-!
### Protection sequence (`executeProtection`)

The sequence awaits external actions, so the connection handle, the status,
the inventory fill level, the scan results and the renewed-threat check may
change at every suspension point.  `ProtEnv` is the oracle of those
observations, indexed by a step counter that advances once per while-loop
head and once per per-block action.  External actions are recorded in an
action trace; `stop()` is applied to the supervisor state as in the source.
Equip/look/dig failures are caught in the source and merely continue the
loop, so they are modelled as succeeding.  The run is fuel-bounded: `none`
means the fuel ran out mid-loop (the exit-path claims quantify only over
runs that do exit).
-/

/-- External actions performed by the protection sequence. -/
inductive PAct where
  | equipPickaxe
  | sneakOn
  | sneakOff
  | look (p : Vec3)
  | dig (p : Vec3)
  | protoStop
deriving DecidableEq

/-- Why the protection sequence ended. -/
inductive PExit where
  | notStarted
  | invFull
  | noTargets
  | threat
  | connLost
  | wentOffline
deriving DecidableEq

/-- Oracle of world observations during the protection sequence. -/
structure ProtEnv where
  alive : Nat → Bool
  aliveAfterLook : Nat → Bool
  online : Nat → Bool
  emptySlots : Nat → Nat
  scan : Nat → List Vec3
  blockOk : Nat → Vec3 → Bool
  enemy : Nat → Bool
  hasPickaxe : Bool

/-- The code after the while loop (lines releasing sneak when the handle is
still there, clearing the guard and calling `stop()`). -/
def protFinish (env : ProtEnv) (t : Nat) (s : BotState) (acts : List PAct)
    (e : PExit) : BotState × List PAct × PExit :=
  let r := if env.alive t then ({ s with sneak := false }, acts ++ [PAct.sneakOff])
           else (s, acts)
  let s := { r.1 with protectionRunning := false }
  ((stop s).1, r.2 ++ [PAct.protoStop], e)

/-- The inner for-loop over the scanned block positions.  `Sum.inl` is an
early return out of `executeProtection` (connection lost or renewed
threat); `Sum.inr` resumes the while loop. -/
def protBreakLoop (env : ProtEnv) :
    List Vec3 → Nat → BotState → List PAct →
    (BotState × List PAct × PExit) ⊕ (Nat × BotState × List PAct)
  | [], t, s, acts => Sum.inr (t, s, acts)
  | pos :: rest, t, s, acts =>
    if !env.alive t then
      Sum.inl ({ s with protectionRunning := false }, acts, .connLost)
    else if env.enemy t then
      Sum.inl ((stop { s with protectionRunning := false }).1, acts ++ [PAct.protoStop], .threat)
    else if env.emptySlots t ≤ 2 then
      Sum.inr (t + 1, s, acts)
    else if !env.blockOk t pos then
      protBreakLoop env rest (t + 1) s acts
    else
      let acts := acts ++ [PAct.look pos]
      if !env.aliveAfterLook t then
        Sum.inl ({ s with protectionRunning := false }, acts, .connLost)
      else
        protBreakLoop env rest (t + 1) s (acts ++ [PAct.dig pos])

/-- The scan-and-clear while loop, bounded by fuel. -/
def protWhile (env : ProtEnv) : Nat → Nat → BotState → List PAct →
    Option (BotState × List PAct × PExit)
  | 0, _, _, _ => none
  | fuel + 1, t, s, acts =>
    if !(env.alive t && env.online t) then
      some (protFinish env t s acts .wentOffline)
    else if env.emptySlots t ≤ 2 then
      some (protFinish env t s acts .invFull)
    else if env.scan t = [] then
      some (protFinish env t s acts .noTargets)
    else
      match protBreakLoop env (env.scan t) (t + 1) s acts with
      | Sum.inl r => some r
      | Sum.inr r => protWhile env fuel (r.1 + 1) r.2.1 r.2.2

/-- `executeProtection()`: refuse when offline or while the non-reentrancy
guard `_protectionRunning` is set; otherwise set the guard, best-effort
equip a pickaxe, engage sneak and enter the scan-and-clear loop. -/
def executeProtection (env : ProtEnv) (fuel : Nat) (s : BotState) :
    Option (BotState × List PAct × PExit) :=
  if !s.bot || s.status ≠ .online then some (s, [], .notStarted)
  else if s.protectionRunning then some (s, [], .notStarted)
  else
    let s := { s with protectionRunning := true }
    let acts := if env.hasPickaxe then [PAct.equipPickaxe] else []
    let s := { s with sneak := true }
    protWhile env fuel 0 s (acts ++ [PAct.sneakOn])

/-- Whether the last emitted output of a scan is a proximity notification
(the emergency path emits it and returns at once). -/
def endsWithNotify : List Out → Bool
  | [] => false
  | o :: rest =>
    if rest.isEmpty then
      match o with
      | Out.proximityNotify _ => true
      | _ => false
    else endsWithNotify rest

/-- How many alert bursts for identity `u` a list of outputs holds. -/
def burstCount (u : String) (l : List Out) : Nat :=
  (l.filter fun o =>
    match o with
    | Out.alertBurst v _ => decide (v = u)
    | _ => false).length

/-- Concrete configuration used by the scenario theorems: auto-reconnect on,
three reconnect attempts maximum, every distance/cooldown setting left to
its default, no whitelist, no protection block. -/
def cfg0 : Config where
  settings :=
    { autoReconnect := true
      maxReconnectAttempts := 3
      reconnectDelay := 5000
      antiAfkEnabled := true
      antiAfkInterval := 30000
      proximityAlertEnabled := true
      alertDistance := 0
      alertCooldown := 0
      alertWhitelist := []
      protection := none }
  username := "selfbot"

/-- Concrete online supervisor state used by the scenario theorems. -/
def sOnline : BotState where
  status := .online
  isPaused := false
  isConnecting := false
  isManuallyStopped := false
  reconnectAttempts := 0
  bot := true
  antiAfkInterval := true
  proximityInterval := true
  autoEatTimeout := true
  inventoryMonitorInterval := true
  lobbyRetryInterval := false
  reconnectTimeout := none
  tempReconnectDelay := none
  alertCooldowns := fun _ => 0
  protectionEnabled := false
  isInLobby := false
  lastPosition := none
  isEating := false
  eatTimeoutCount := 0
  protectionRunning := false
  sneak := true
  alertsTriggered := 0
  lobbyEvents := 0

/-- Concrete online state whose home position has been recorded. -/
def sHome : BotState :=
  { sOnline with lastPosition := some ⟨0, 0, 0⟩ }

/-- Concrete online state with the protection guard already set. -/
def sGuarded : BotState :=
  { sOnline with protectionRunning := true }

/-- Protection-sequence environment: connection stays up, nothing to clear
(the scan finds no target blocks). -/
def quietEnv : ProtEnv where
  alive := fun _ => true
  aliveAfterLook := fun _ => true
  online := fun _ => true
  emptySlots := fun _ => 36
  scan := fun _ => []
  blockOk := fun _ _ => true
  enemy := fun _ => false
  hasPickaxe := true

/-- Protection-sequence environment: one target block, but an enemy is inside
the emergency distance as soon as the per-block loop starts. -/
def threatEnv : ProtEnv where
  alive := fun _ => true
  aliveAfterLook := fun _ => true
  online := fun _ => true
  emptySlots := fun _ => 36
  scan := fun _ => [⟨1, 0, 0⟩]
  blockOk := fun _ _ => true
  enemy := fun _ => true
  hasPickaxe := true

/-- Protection-sequence environment: one target block, and the connection
handle disappears right when the per-block loop starts. -/
def lostEnv : ProtEnv where
  alive := fun t => decide (t = 0)
  aliveAfterLook := fun _ => true
  online := fun _ => true
  emptySlots := fun _ => 36
  scan := fun _ => [⟨1, 0, 0⟩]
  blockOk := fun _ _ => true
  enemy := fun _ => false
  hasPickaxe := true

/-- The (defined) result of the quiet protection run — it exits with
`noTargets`. -/
def protoOutQuiet : BotState × List PAct × PExit :=
  (executeProtection quietEnv 2 sOnline).getD (sOnline, [], .notStarted)

/-- Auto-eat tick observation: hungry, food item present, attempt times out. -/
def envEatTimeout : EatEnv :=
  ⟨10, true, .timeout⟩

/-- Auto-eat tick observation: hungry, food item present, consume succeeds. -/
def envEatSuccess : EatEnv :=
  ⟨10, true, .success⟩

/-- C4: `stop()` is idempotent: for every session state, including one holding
no active connection handle, calling `stop()` twice in a row leaves the phase
`Offline` after each call and signals no error (returns `true`) either time;
the second call does not change the state at all. -/
theorem stop_idempotent_C4 (s : BotState) :
    (stop s).2 = true ∧ (stop s).1.status = .offline ∧
    stop (stop s).1 = ((stop s).1, true) := by
  exact ⟨rfl, rfl, rfl⟩

/-- C10: `toggleProtection()` with no argument negates `protectionEnabled` and
returns the new value; `toggleProtection(b)` sets it to `b` and returns `b`;
two consecutive no-argument calls restore the original value. -/
theorem toggleProtection_C10 (s : BotState) (b : Bool) :
    (toggleProtection none s).1.protectionEnabled = !s.protectionEnabled ∧
    (toggleProtection none s).2 = !s.protectionEnabled ∧
    (toggleProtection (some b) s).1.protectionEnabled = b ∧
    (toggleProtection (some b) s).2 = b ∧
    (toggleProtection none (toggleProtection none s).1).1.protectionEnabled
      = s.protectionEnabled := by
  refine ⟨rfl, rfl, rfl, rfl, ?_⟩
  simp [toggleProtection]

/-- C9: in the self-sustenance loop, every equip-and-consume timeout increments
the consecutive-timeout counter and escalates the next-tick delay above the
5000 ms base interval; starting from a zero counter, three consecutive
timeouts leave the counter at 3 with the delay escalated to 30000 ms, and a
subsequent successful consume resets the counter to zero and returns the loop
to the base interval. -/
theorem autoeat_backoff_C9 (envT envS : EatEnv) (s : BotState)
    (hb : s.bot = true) (ho : s.status = .online) (hp : s.isPaused = false)
    (hz : s.eatTimeoutCount = 0)
    (hf : envT.food < 14) (hi : envT.hasFoodItem = true) (ht : envT.outcome = .timeout)
    (hfS : envS.food < 14) (hiS : envS.hasFoodItem = true) (hsS : envS.outcome = .success) :
    (∀ s₀ : BotState, s₀.bot = true → s₀.status = .online → s₀.isPaused = false →
      (autoEatTick envT s₀).1.eatTimeoutCount = s₀.eatTimeoutCount + 1 ∧
      5000 < (autoEatTick envT s₀).2) ∧
    (autoEatTick envT (autoEatTick envT (autoEatTick envT s).1).1).1.eatTimeoutCount = 3 ∧
    (autoEatTick envT (autoEatTick envT (autoEatTick envT s).1).1).2 = 30000 ∧
    (autoEatTick envS (autoEatTick envT (autoEatTick envT (autoEatTick envT s).1).1).1).1.eatTimeoutCount
      = 0 ∧
    (autoEatTick envS (autoEatTick envT (autoEatTick envT (autoEatTick envT s).1).1).1).2 = 5000 := by
  refine ⟨?_, ?_, ?_, ?_, ?_⟩
  · intro s₀ hb' ho' hp'
    refine ⟨?_, ?_⟩
    · simp [autoEatTick, hb', ho', hp', hf, hi, ht]
    · simp [autoEatTick, hb', ho', hp', hf, hi, ht]
      split <;> norm_num
  · simp [autoEatTick, hb, ho, hp, hf, hi, ht, hz]
  · simp [autoEatTick, hb, ho, hp, hf, hi, ht, hz]
  · simp [autoEatTick, hb, ho, hp, hf, hi, ht, hz, hfS, hiS, hsS]
  · simp [autoEatTick, hb, ho, hp, hf, hi, ht, hz, hfS, hiS, hsS]

/-- Witness for C9: three timed-out consume attempts from a fresh counter
leave the counter at 3 with a 30000 ms delay; the following successful
consume resets the counter to zero and the loop returns to 5000 ms. -/
theorem autoeat_backoff_C9_witness :
    (autoEatTick envEatTimeout (autoEatTick envEatTimeout
      (autoEatTick envEatTimeout sOnline).1).1).1.eatTimeoutCount = 3 ∧
    (autoEatTick envEatTimeout (autoEatTick envEatTimeout
      (autoEatTick envEatTimeout sOnline).1).1).2 = 30000 ∧
    (autoEatTick envEatSuccess (autoEatTick envEatTimeout (autoEatTick envEatTimeout
      (autoEatTick envEatTimeout sOnline).1).1).1).1.eatTimeoutCount = 0 ∧
    (autoEatTick envEatSuccess (autoEatTick envEatTimeout (autoEatTick envEatTimeout
      (autoEatTick envEatTimeout sOnline).1).1).1).2 = 5000 := by
  have h := autoeat_backoff_C9 envEatTimeout envEatSuccess sOnline rfl rfl rfl rfl
    (by decide) rfl rfl (by decide) rfl rfl
  exact ⟨h.2.1, h.2.2.1, h.2.2.2.1, h.2.2.2.2⟩

/-- C3 counterexample: with `maxReconnectAttempts = 3`, three consecutive
disconnects (each scheduled reconnect firing and failing again) do NOT end
with phase `Failed`: after the third disconnect the status is `offline`,
`reconnectAttempts` is 3, and a third reconnect attempt is still scheduled
at the flat 5000 ms delay.  `Failed` is only reached on the fourth
disconnect. -/
theorem three_disconnects_C3_cex :
    (run cfg0 sOnline [.endConn, .reconnectFire, .endConn, .reconnectFire,
        .endConn]).1.status = .offline ∧
    (run cfg0 sOnline [.endConn, .reconnectFire, .endConn, .reconnectFire,
        .endConn]).1.reconnectAttempts = 3 ∧
    (run cfg0 sOnline [.endConn, .reconnectFire, .endConn, .reconnectFire,
        .endConn]).1.reconnectTimeout = some 5000 := by
  exact ⟨by decide, by decide, by decide⟩

/-- C3 (amended): whenever a disconnect is handled with auto-reconnect
enabled, not paused and not manually stopped: if `reconnectAttempts` has
reached `maxReconnectAttempts` the phase becomes `Failed` and no attempt is
scheduled; otherwise the counter is incremented and `start()` is scheduled
after the one-shot override or the flat configured delay (the same delay at
every attempt — no exponential growth).  With `maxAttempts = 3`, it is the
fourth consecutive disconnect that ends with phase `Failed`,
`reconnectAttempts == 3`, and no fourth scheduled attempt. -/
theorem reconnect_scheduling_C3 :
    (∀ (cfg : Config) (s : BotState), s.isManuallyStopped = false →
      cfg.settings.maxReconnectAttempts ≤ s.reconnectAttempts →
      handleReconnect cfg s = { s with status := .failed }) ∧
    (∀ (cfg : Config) (s : BotState), s.isManuallyStopped = false →
      s.reconnectAttempts < cfg.settings.maxReconnectAttempts →
      handleReconnect cfg s =
        { s with reconnectAttempts := s.reconnectAttempts + 1,
                 tempReconnectDelay := none,
                 reconnectTimeout :=
                   some (jsOrOpt s.tempReconnectDelay
                     (jsOr cfg.settings.reconnectDelay 5000)) }) ∧
    (run cfg0 sOnline [.endConn, .reconnectFire, .endConn, .reconnectFire,
        .endConn, .reconnectFire, .endConn]).1.status = .failed ∧
    (run cfg0 sOnline [.endConn, .reconnectFire, .endConn, .reconnectFire,
        .endConn, .reconnectFire, .endConn]).1.reconnectAttempts = 3 ∧
    (run cfg0 sOnline [.endConn, .reconnectFire, .endConn, .reconnectFire,
        .endConn, .reconnectFire, .endConn]).1.reconnectTimeout = none := by
  refine ⟨?_, ?_, by decide, by decide, by decide⟩
  · intro cfg s hm hmax
    simp [handleReconnect, hm, hmax]
  · intro cfg s hm hlt
    simp [handleReconnect, hm, Nat.not_le.mpr hlt]

/-- Witness for C3: the general reconnect-scheduling rule applied at a
concrete state — one disconnect from `sOnline` under `cfg0` increments the
counter to 1 and schedules the flat 5000 ms delay. -/
theorem reconnect_scheduling_C3_witness :
    handleReconnect cfg0 sOnline =
      { sOnline with reconnectAttempts := 1, tempReconnectDelay := none,
                     reconnectTimeout := some (jsOrOpt sOnline.tempReconnectDelay
                       (jsOr cfg0.settings.reconnectDelay 5000)) } := by
  exact reconnect_scheduling_C3.2.1 cfg0 sOnline rfl (by decide)

/-- `enterLobbyMode` touches neither the manual-stop flag nor the reconnect
timer. -/
theorem enterLobbyMode_keeps (s : BotState) :
    (enterLobbyMode s).1.isManuallyStopped = s.isManuallyStopped ∧
    (enterLobbyMode s).1.reconnectTimeout = s.reconnectTimeout := by
  unfold enterLobbyMode
  split <;> exact ⟨rfl, rfl⟩

/-- `exitLobbyMode` touches neither the manual-stop flag nor the reconnect
timer. -/
theorem exitLobbyMode_keeps (cfg : Config) (s : BotState) :
    (exitLobbyMode cfg s).1.isManuallyStopped = s.isManuallyStopped ∧
    (exitLobbyMode cfg s).1.reconnectTimeout = s.reconnectTimeout := by
  unfold exitLobbyMode stopLobbyRetry
  refine ⟨?_, ?_⟩ <;> (split <;> split <;> rfl)

/-- The spawn handler touches neither the manual-stop flag nor the reconnect
timer. -/
theorem onSpawn_keeps (cfg : Config) (p : Vec3) (s : BotState) :
    (onSpawn cfg p s).1.isManuallyStopped = s.isManuallyStopped ∧
    (onSpawn cfg p s).1.reconnectTimeout = s.reconnectTimeout := by
  refine ⟨?_, ?_⟩ <;>
  · unfold onSpawn enterLobbyMode exitLobbyMode stopLobbyRetry
    dsimp only
    cases hl : s.lastPosition <;> dsimp only <;> (repeat' split) <;> rfl

/-- The entity scan preserves the suppressed configuration: once manually
stopped with no pending reconnect timer, it stays so (the only state change
the scan can make beyond cooldown bookkeeping is a further `stop()`). -/
theorem scanEntities_suppressed (cfg : Config) (now : Nat) (p : Vec3)
    (l : List Entity) (s : BotState)
    (hm : s.isManuallyStopped = true) (hr : s.reconnectTimeout = none) :
    (scanEntities cfg now p l s).1.isManuallyStopped = true ∧
    (scanEntities cfg now p l s).1.reconnectTimeout = none := by
  induction l generalizing s with
  | nil => exact ⟨hm, hr⟩
  | cons e rest ih =>
    rw [scanEntities]
    split
    · exact ih s hm hr
    · split
      · exact ih s hm hr
      · split
        · exact ih s hm hr
        · split
          · exact ⟨rfl, rfl⟩
          · split
            · split
              · exact ih _ hm hr
              · exact ih s hm hr
            · exact ih s hm hr

/-- Once the manual-stop flag is set and no reconnect timer is pending, no
single event step invokes `start()` or schedules a reconnect, and the flag
stays set. -/
theorem step_suppressed (cfg : Config) (s : BotState) (e : Ev)
    (hm : s.isManuallyStopped = true) (hr : s.reconnectTimeout = none) :
    (step cfg s e).2 = false ∧
    (step cfg s e).1.isManuallyStopped = true ∧
    (step cfg s e).1.reconnectTimeout = none := by
  cases e with
  | login =>
    refine ⟨rfl, ?_, ?_⟩ <;>
      · simp only [step, onLogin]
        split <;> split <;> simp [hm, hr]
  | spawnAt p =>
    have h := onSpawn_keeps cfg p s
    exact ⟨rfl, h.1.trans hm, h.2.trans hr⟩
  | endConn =>
    refine ⟨rfl, ?_, ?_⟩ <;>
      simp [step, onEnd, handleReconnect, cleanup, stopLobbyRetry, hm, hr]
  | kicked r =>
    refine ⟨rfl, ?_, ?_⟩ <;>
      · simp only [step, onKicked]
        split <;> simp [hm, hr]
  | errored => exact ⟨rfl, hm, hr⟩
  | reconnectFire =>
    refine ⟨?_, ?_, ?_⟩ <;> simp [step, hr, hm]
  | proxTick now selfPos entities =>
    refine ⟨rfl, ?_, ?_⟩ <;>
      · simp only [step, proximityTick]
        split
        · simp [hm, hr]
        · first
          | exact (scanEntities_suppressed cfg now selfPos entities s hm hr).1
          | exact (scanEntities_suppressed cfg now selfPos entities s hm hr).2
  | stopCmd => exact ⟨rfl, rfl, rfl⟩
  | pauseCmd =>
    refine ⟨rfl, ?_, ?_⟩ <;>
      · simp only [step, pause]
        split <;> simp [hm, hr]
  | resumeCmd =>
    refine ⟨rfl, ?_, ?_⟩ <;>
      · simp only [step, resume]
        split <;> simp [hm, hr]

/-- Over any event sequence from a suppressed configuration, no `start()` is
ever invoked and no reconnect timer ever becomes pending. -/
theorem run_suppressed (cfg : Config) (evs : List Ev) (s : BotState)
    (hm : s.isManuallyStopped = true) (hr : s.reconnectTimeout = none) :
    (run cfg s evs).2 = false ∧
    (run cfg s evs).1.isManuallyStopped = true ∧
    (run cfg s evs).1.reconnectTimeout = none := by
  induction evs generalizing s with
  | nil => exact ⟨rfl, hm, hr⟩
  | cons e rest ih =>
    have h1 := step_suppressed cfg s e hm hr
    have h2 := ih (step cfg s e).1 h1.2.1 h1.2.2
    refine ⟨?_, h2.2.1, h2.2.2⟩
    simp [run, h1.1, h2.1]

/-- C2: after `stop()` and before any operator `start()`, no automatic
`start()` is performed: `stop()` cancels any pending reconnect timer, and
over any subsequent sequence of connection events — including further
`disconnected`/`end` events and stale reconnect-timer fires — no step ever
invokes `start()` and no reconnect timer is ever (re)scheduled. -/
theorem manual_stop_suppresses_reconnect_C2 (cfg : Config) (s : BotState)
    (evs : List Ev) :
    (stop s).1.reconnectTimeout = none ∧
    (stop s).1.isManuallyStopped = true ∧
    (run cfg (stop s).1 evs).2 = false ∧
    (run cfg (stop s).1 evs).1.reconnectTimeout = none := by
  have h := run_suppressed cfg evs (stop s).1 rfl rfl
  exact ⟨rfl, rfl, h.1, h.2.2⟩

/-- Entering lobby mode from a non-lobby state: the flag is set, the
idle-prevention and threat-detection timers are cancelled, the `/home`
retry loop starts, observers are notified, and `lastPosition` is kept. -/
theorem enterLobbyMode_fields (s : BotState) (h : s.isInLobby = false) :
    (enterLobbyMode s).1.isInLobby = true ∧
    (enterLobbyMode s).1.antiAfkInterval = false ∧
    (enterLobbyMode s).1.proximityInterval = false ∧
    (enterLobbyMode s).1.lastPosition = s.lastPosition ∧
    (enterLobbyMode s).1.lobbyRetryInterval = true ∧
    (enterLobbyMode s).2 = [Out.lobbyNotify true] := by
  unfold enterLobbyMode
  rw [if_neg (by simp [h])]
  exact ⟨rfl, rfl, rfl, rfl, rfl, rfl⟩

/-- Exiting lobby mode clears the flag and re-arms the idle-prevention and
threat-detection timers exactly per the policy flags (given they were
cancelled on entry). -/
theorem exitLobbyMode_fields (cfg : Config) (s : BotState)
    (ha : s.antiAfkInterval = false) (hp : s.proximityInterval = false) :
    (exitLobbyMode cfg s).1.isInLobby = false ∧
    (exitLobbyMode cfg s).1.antiAfkInterval = cfg.settings.antiAfkEnabled ∧
    (exitLobbyMode cfg s).1.proximityInterval = cfg.settings.proximityAlertEnabled := by
  unfold exitLobbyMode stopLobbyRetry
  refine ⟨?_, ?_, ?_⟩ <;> (dsimp only; split <;> split <;> simp_all)

/-- A spawn at a position more than 200 blocks from the recorded
`lastPosition`, while not in lobby mode, enters lobby mode. -/
theorem onSpawn_enter (cfg : Config) (s : BotState) (lp p : Vec3)
    (hl : s.isInLobby = false) (hlp : s.lastPosition = some lp)
    (hjump : distGT lp p 200 = true) :
    (onSpawn cfg p s).1.isInLobby = true ∧
    (onSpawn cfg p s).1.antiAfkInterval = false ∧
    (onSpawn cfg p s).1.proximityInterval = false ∧
    (onSpawn cfg p s).1.lastPosition = some lp := by
  unfold onSpawn
  dsimp only
  rw [hlp]
  dsimp only
  rw [if_pos (by simp [hjump, hl])]
  have h := enterLobbyMode_fields { s with sneak := true, lastPosition := some lp } hl
  exact ⟨h.1, h.2.1, h.2.2.1, h.2.2.2.1⟩

/-- A spawn within 50 blocks of the recorded `lastPosition`, while in lobby
mode, exits lobby mode and re-arms the timers per the policy flags. -/
theorem onSpawn_exit (cfg : Config) (s : BotState) (lp p : Vec3)
    (hin : s.isInLobby = true) (hlp : s.lastPosition = some lp)
    (hback : distLT lp p 50 = true)
    (ha : s.antiAfkInterval = false) (hpx : s.proximityInterval = false) :
    (onSpawn cfg p s).1.isInLobby = false ∧
    (onSpawn cfg p s).1.antiAfkInterval = cfg.settings.antiAfkEnabled ∧
    (onSpawn cfg p s).1.proximityInterval = cfg.settings.proximityAlertEnabled := by
  unfold onSpawn exitLobbyMode stopLobbyRetry
  dsimp only
  rw [hlp]
  dsimp only
  by_cases hA : cfg.settings.antiAfkEnabled = true <;>
    by_cases hP : cfg.settings.proximityAlertEnabled = true <;>
      simp [hin, hback, ha, hpx, hA, hP]

/-- C8: while online and not already in lobby mode, a spawn event at a
position farther than the 200-block displacement threshold from
`lastPosition` sets `isInLobby := true` and cancels the idle-prevention and
threat-detection timers; a subsequent spawn event within the 50-block
recovery threshold of `lastPosition` clears `isInLobby` and re-arms
idle-prevention and threat-detection per the policy flags. -/
theorem lobby_mode_C8 (cfg : Config) (s : BotState) (lp p₁ p₂ : Vec3)
    (ho : s.status = .online) (hl : s.isInLobby = false)
    (hlp : s.lastPosition = some lp)
    (hjump : distGT lp p₁ 200 = true) (hback : distLT lp p₂ 50 = true) :
    (onSpawn cfg p₁ s).1.isInLobby = true ∧
    (onSpawn cfg p₁ s).1.antiAfkInterval = false ∧
    (onSpawn cfg p₁ s).1.proximityInterval = false ∧
    (onSpawn cfg p₂ (onSpawn cfg p₁ s).1).1.isInLobby = false ∧
    (onSpawn cfg p₂ (onSpawn cfg p₁ s).1).1.antiAfkInterval
      = cfg.settings.antiAfkEnabled ∧
    (onSpawn cfg p₂ (onSpawn cfg p₁ s).1).1.proximityInterval
      = cfg.settings.proximityAlertEnabled := by
  have h1 := onSpawn_enter cfg s lp p₁ hl hlp hjump
  have h2 := onSpawn_exit cfg (onSpawn cfg p₁ s).1 lp p₂ h1.1 h1.2.2.2 hback
    h1.2.1 h1.2.2.1
  exact ⟨h1.1, h1.2.1, h1.2.2.1, h2.1, h2.2.1, h2.2.2⟩

/-- Witness for C8: from the home position `(0,0,0)`, a spawn at `(300,0,0)`
enters lobby mode and a following spawn at `(10,0,0)` exits it, re-arming
both timers (both policy flags are on in `cfg0`). -/
theorem lobby_mode_C8_witness :
    (onSpawn cfg0 ⟨300, 0, 0⟩ sHome).1.isInLobby = true ∧
    (onSpawn cfg0 ⟨300, 0, 0⟩ sHome).1.antiAfkInterval = false ∧
    (onSpawn cfg0 ⟨300, 0, 0⟩ sHome).1.proximityInterval = false ∧
    (onSpawn cfg0 ⟨10, 0, 0⟩ (onSpawn cfg0 ⟨300, 0, 0⟩ sHome).1).1.isInLobby = false ∧
    (onSpawn cfg0 ⟨10, 0, 0⟩ (onSpawn cfg0 ⟨300, 0, 0⟩ sHome).1).1.antiAfkInterval
      = cfg0.settings.antiAfkEnabled ∧
    (onSpawn cfg0 ⟨10, 0, 0⟩ (onSpawn cfg0 ⟨300, 0, 0⟩ sHome).1).1.proximityInterval
      = cfg0.settings.proximityAlertEnabled :=
  lobby_mode_C8 cfg0 sHome ⟨0, 0, 0⟩ ⟨300, 0, 0⟩ ⟨10, 0, 0⟩ rfl rfl rfl
    (by decide) (by decide)

/-- Burst counting distributes over appended output lists. -/
theorem burstCount_append (u : String) (a b : List Out) :
    burstCount u (a ++ b) = burstCount u a + burstCount u b := by
  simp [burstCount, List.filter_append]

/-- A protection-trigger output is never an alert burst. -/
theorem burstCount_trigger (u : String) (c : Bool) :
    burstCount u (if c = true then [Out.protectionTrigger] else []) = 0 := by
  split <;> simp [burstCount]

/-- C7: two qualifying proximity events for the same identity within one
cooldown window yield exactly one alert burst.  The first tick records the
cooldown timestamp and emits one burst of five notifications; a second tick
within the cooldown window emits none. -/
theorem alert_cooldown_C7 (cfg : Config) (s : BotState) (u : String)
    (selfPos pos : Vec3) (t₁ t₂ : Nat)
    (hb : s.bot = true) (ho : s.status = .online) (hp : s.isPaused = false)
    (hl : s.isInLobby = false)
    (hne : u ≠ cfg.username) (hw : isWhitelisted cfg u = false)
    (hfar : distLE selfPos pos (effEmergencyDistance cfg) = false)
    (hnear : distLE selfPos pos (effAlertDistance cfg) = true)
    (hcd : effAlertCooldown cfg < t₁ - s.alertCooldowns u)
    (hord : t₁ ≤ t₂) (hwin : t₂ - t₁ ≤ effAlertCooldown cfg) :
    (proximityTick cfg t₁ selfPos [⟨"player", u, some pos⟩] s).1.alertCooldowns u = t₁ ∧
    burstCount u (proximityTick cfg t₁ selfPos [⟨"player", u, some pos⟩] s).2 = 1 ∧
    burstCount u (proximityTick cfg t₂ selfPos [⟨"player", u, some pos⟩]
      (proximityTick cfg t₁ selfPos [⟨"player", u, some pos⟩] s).1).2 = 0 := by
  have hncd : ¬(effAlertCooldown cfg < t₂ - t₁) := Nat.not_lt.mpr hwin
  refine ⟨?_, ?_, ?_⟩ <;>
    simp [proximityTick, scanEntities, hb, ho, hp, hl, hne, hw, hfar, hnear, hcd, hncd,
      burstCount_append, burstCount_trigger, burstCount] <;>
    (intro a h1 h2 ha; subst ha; rfl)

/-- Witness for C7: a watcher 20 blocks away (inside the default 96-block
alert distance, outside the emergency distance) alerts once at t=300001 and
is silenced on a second tick 99 ms later. -/
theorem alert_cooldown_C7_witness :
    (proximityTick cfg0 300001 ⟨0, 0, 0⟩ [⟨"player", "Watcher", some ⟨20, 0, 0⟩⟩]
      sOnline).1.alertCooldowns "Watcher" = 300001 ∧
    burstCount "Watcher" (proximityTick cfg0 300001 ⟨0, 0, 0⟩
      [⟨"player", "Watcher", some ⟨20, 0, 0⟩⟩] sOnline).2 = 1 ∧
    burstCount "Watcher" (proximityTick cfg0 300100 ⟨0, 0, 0⟩
      [⟨"player", "Watcher", some ⟨20, 0, 0⟩⟩]
      (proximityTick cfg0 300001 ⟨0, 0, 0⟩ [⟨"player", "Watcher", some ⟨20, 0, 0⟩⟩]
        sOnline).1).2 = 0 :=
  alert_cooldown_C7 cfg0 sOnline "Watcher" ⟨0, 0, 0⟩ ⟨20, 0, 0⟩ 300001 300100
    rfl rfl rfl rfl (by decide) (by decide) (by decide) (by decide) (by decide)
    (by decide) (by decide)

/-- The post-loop epilogue always clears the `_protectionRunning` guard
(and `stop()` does not touch it). -/
theorem protFinish_guard (env : ProtEnv) (t : Nat) (s : BotState)
    (acts : List PAct) (e : PExit) :
    (protFinish env t s acts e).1.protectionRunning = false := rfl

/-- Every early return out of the per-block loop has the guard cleared. -/
theorem protBreakLoop_guard (env : ProtEnv) (l : List Vec3) (t : Nat)
    (s : BotState) (acts : List PAct) (r : BotState × List PAct × PExit)
    (h : protBreakLoop env l t s acts = Sum.inl r) :
    r.1.protectionRunning = false := by
  induction l generalizing t s acts with
  | nil => simp [protBreakLoop] at h
  | cons pos rest ih =>
    rw [protBreakLoop] at h
    split at h
    · injection h with h1
      subst h1
      rfl
    · split at h
      · injection h with h1
        subst h1
        rfl
      · split at h
        · exact Sum.noConfusion h
        · split at h
          · exact ih _ _ _ h
          · split at h
            · injection h with h1
              subst h1
              rfl
            · exact ih _ _ _ h

/-- Every completed run of the scan-and-clear while loop has the guard
cleared. -/
theorem protWhile_guard (env : ProtEnv) (fuel : Nat) (t : Nat) (s : BotState)
    (acts : List PAct) (r : BotState × List PAct × PExit)
    (h : protWhile env fuel t s acts = some r) :
    r.1.protectionRunning = false := by
  induction fuel generalizing t s acts with
  | zero => simp [protWhile] at h
  | succ fuel ih =>
    rw [protWhile] at h
    split at h
    · injection h with h1
      subst h1
      exact protFinish_guard env t s acts _
    · split at h
      · injection h with h1
        subst h1
        exact protFinish_guard env t s acts _
      · split at h
        · injection h with h1
          subst h1
          exact protFinish_guard env t s acts _
        · split at h
          · rename_i r' heq
            injection h with h1
            subst h1
            exact protBreakLoop_guard env _ _ _ _ _ heq
          · exact ih _ _ _ h

/-- C5: the protection sequence is non-reentrant per slot — while the
`_protectionRunning` guard is set, every further `executeProtection()`
invocation returns immediately with the state untouched and no action
performed; and every completed run that actually started (any exit other
than `notStarted`) ends with the guard cleared, so a later trigger can run
again. -/
theorem protection_guard_C5 :
    (∀ (env : ProtEnv) (fuel : Nat) (s : BotState), s.protectionRunning = true →
      executeProtection env fuel s = some (s, [], .notStarted)) ∧
    (∀ (env : ProtEnv) (fuel : Nat) (s : BotState)
      (out : BotState × List PAct × PExit),
      executeProtection env fuel s = some out → out.2.2 ≠ .notStarted →
      out.1.protectionRunning = false) := by
  constructor
  · intro env fuel s h
    simp [executeProtection, h]
  · intro env fuel s out h hne
    unfold executeProtection at h
    split at h
    · injection h with h1
      subst h1
      exact absurd rfl hne
    · split at h
      · injection h with h1
        subst h1
        exact absurd rfl hne
      · exact protWhile_guard env fuel 0 _ _ out h

/-- Witness for C5: with the guard set, a quiet-world invocation is a no-op;
the completed quiet run (exit `noTargets`) ends with the guard cleared. -/
theorem protection_guard_C5_witness :
    executeProtection quietEnv 2 sGuarded = some (sGuarded, [], .notStarted) ∧
    protoOutQuiet.1.protectionRunning = false := by
  constructor
  · exact protection_guard_C5.1 quietEnv 2 sGuarded rfl
  · exact protection_guard_C5.2 quietEnv 2 sOnline protoOutQuiet rfl (by decide)

/-- Early returns from the per-block loop exit only with `threat` or
`connLost`; a `threat` exit has recorded `stop()` and never released sneak,
a `connLost` exit has recorded neither; a resumption hands back a trace
still free of `sneakOff` and `protoStop`. -/
theorem protBreakLoop_trace (env : ProtEnv) (l : List Vec3) (t : Nat)
    (s : BotState) (acts : List PAct)
    (hs : PAct.sneakOff ∉ acts) (hp : PAct.protoStop ∉ acts) :
    (∀ r, protBreakLoop env l t s acts = Sum.inl r →
      (r.2.2 = .threat ∨ r.2.2 = .connLost) ∧
      (r.2.2 = .threat → PAct.protoStop ∈ r.2.1 ∧ PAct.sneakOff ∉ r.2.1) ∧
      (r.2.2 = .connLost → PAct.protoStop ∉ r.2.1 ∧ PAct.sneakOff ∉ r.2.1)) ∧
    (∀ q, protBreakLoop env l t s acts = Sum.inr q →
      PAct.sneakOff ∉ q.2.2 ∧ PAct.protoStop ∉ q.2.2) := by
  induction l generalizing t s acts with
  | nil =>
    constructor
    · intro r h
      simp [protBreakLoop] at h
    · intro q h
      rw [protBreakLoop] at h
      injection h with h1
      subst h1
      exact ⟨hs, hp⟩
  | cons pos rest ih =>
    constructor
    · intro r h
      rw [protBreakLoop] at h
      split at h
      · injection h with h1
        subst h1
        refine ⟨Or.inr rfl, ?_, ?_⟩ <;> intro hx
        · exact absurd hx (by simp)
        · exact ⟨hp, hs⟩
      · split at h
        · injection h with h1
          subst h1
          refine ⟨Or.inl rfl, ?_, ?_⟩ <;> intro hx
          · constructor
            · simp
            · simp [hs]
          · exact absurd hx (by simp)
        · split at h
          · exact Sum.noConfusion h
          · split at h
            · exact (ih _ _ _ hs hp).1 r h
            · split at h
              · injection h with h1
                subst h1
                refine ⟨Or.inr rfl, ?_, ?_⟩ <;> intro hx
                · exact absurd hx (by simp)
                · constructor
                  · simp [hp]
                  · simp [hs]
              · refine (ih _ _ _ ?_ ?_).1 r h <;> simp [hs, hp]
    · intro q h
      rw [protBreakLoop] at h
      split at h
      · exact Sum.noConfusion h
      · split at h
        · exact Sum.noConfusion h
        · split at h
          · injection h with h1
            subst h1
            exact ⟨hs, hp⟩
          · split at h
            · exact (ih _ _ _ hs hp).2 q h
            · split at h
              · exact Sum.noConfusion h
              · refine (ih _ _ _ ?_ ?_).2 q h <;> simp [hs, hp]

/-- Trace facts for every completed while-loop run: the `invFull` and
`noTargets` exits release sneak and record `stop()`; a `threat` exit records
`stop()` but never a sneak release; a `connLost` exit records neither. -/
theorem protWhile_trace (env : ProtEnv) (fuel : Nat) (t : Nat) (s : BotState)
    (acts : List PAct) (r : BotState × List PAct × PExit)
    (hs : PAct.sneakOff ∉ acts) (hp : PAct.protoStop ∉ acts)
    (h : protWhile env fuel t s acts = some r) :
    (r.2.2 = .invFull ∨ r.2.2 = .noTargets →
      PAct.sneakOff ∈ r.2.1 ∧ PAct.protoStop ∈ r.2.1) ∧
    (r.2.2 = .threat → PAct.protoStop ∈ r.2.1 ∧ PAct.sneakOff ∉ r.2.1) ∧
    (r.2.2 = .connLost → PAct.protoStop ∉ r.2.1 ∧ PAct.sneakOff ∉ r.2.1) := by
  induction fuel generalizing t s acts with
  | zero => simp [protWhile] at h
  | succ fuel ih =>
    rw [protWhile] at h
    split at h
    · injection h with h1
      subst h1
      refine ⟨?_, ?_, ?_⟩ <;> intro hx <;> simp [protFinish] at hx
    · rename_i hcond
      have halive : env.alive t = true := by
        simp at hcond
        exact hcond.1
      split at h
      · injection h with h1
        subst h1
        refine ⟨?_, ?_, ?_⟩ <;> intro hx
        · unfold protFinish
          rw [if_pos halive]
          simp
        · simp [protFinish] at hx
        · simp [protFinish] at hx
      · split at h
        · injection h with h1
          subst h1
          refine ⟨?_, ?_, ?_⟩ <;> intro hx
          · unfold protFinish
            rw [if_pos halive]
            simp
          · simp [protFinish] at hx
          · simp [protFinish] at hx
        · split at h
          · rename_i r' heq
            have hb := (protBreakLoop_trace env _ _ _ _ hs hp).1 r' heq
            injection h with h1
            subst h1
            refine ⟨?_, hb.2.1, hb.2.2⟩
            intro hx
            rcases hb.1 with hth | hcl
            · rcases hx with hx | hx <;> (rw [hx] at hth; exact absurd hth (by simp))
            · rcases hx with hx | hx <;> (rw [hx] at hcl; exact absurd hcl (by simp))
          · rename_i q heq
            have hq := (protBreakLoop_trace env _ _ _ _ hs hp).2 q heq
            exact ih _ _ _ hq.1 hq.2 h

/-- C6 counterexample: two concrete protection runs on which the claim "on
every loop exit the sneak control is released and the slot is disconnected
via `stop()`" fails.  On a renewed-threat exit the run records `stop()` but
never releases sneak; on a connection-loss exit the run records neither
`stop()` nor a sneak release. -/
theorem protection_exit_C6_cex :
    (executeProtection threatEnv 2 sOnline).map
        (fun o => (o.2.2, decide (PAct.sneakOff ∈ o.2.1), decide (PAct.protoStop ∈ o.2.1)))
      = some (.threat, false, true) ∧
    (executeProtection lostEnv 2 sOnline).map
        (fun o => (o.2.2, decide (PAct.sneakOff ∈ o.2.1), decide (PAct.protoStop ∈ o.2.1)))
      = some (.connLost, false, false) := by
  exact ⟨by decide, by decide⟩

/-- C6 (amended): when the protection sequence's scan-and-clear loop exits
because the inventory reserve threshold is reached or because no target
blocks remain, the sneak control is released and the slot is disconnected
via `stop()`; when it exits because a renewed emergency-distance threat is
detected mid-sequence, `stop()` is invoked but the sneak control is not
explicitly released (the disconnect drops it implicitly); when it exits
because the connection handle is gone mid-action, the sequence returns
without invoking `stop()` and without releasing sneak. -/
theorem protection_exit_C6_amended (env : ProtEnv) (fuel : Nat) (s : BotState)
    (out : BotState × List PAct × PExit)
    (h : executeProtection env fuel s = some out) :
    (out.2.2 = .invFull ∨ out.2.2 = .noTargets →
      PAct.sneakOff ∈ out.2.1 ∧ PAct.protoStop ∈ out.2.1) ∧
    (out.2.2 = .threat → PAct.protoStop ∈ out.2.1 ∧ PAct.sneakOff ∉ out.2.1) ∧
    (out.2.2 = .connLost → PAct.protoStop ∉ out.2.1 ∧ PAct.sneakOff ∉ out.2.1) := by
  unfold executeProtection at h
  split at h
  · injection h with h1
    subst h1
    refine ⟨?_, ?_, ?_⟩ <;> intro hx <;> simp at hx
  · split at h
    · injection h with h1
      subst h1
      refine ⟨?_, ?_, ?_⟩ <;> intro hx <;> simp at hx
    · refine protWhile_trace env fuel 0 _ _ out ?_ ?_ h <;> split <;> simp

/-- Witness for C6: the quiet run exits with `noTargets` and its trace shows
the sneak release and the `stop()` call. -/
theorem protection_exit_C6_witness :
    PAct.sneakOff ∈ protoOutQuiet.2.1 ∧ PAct.protoStop ∈ protoOutQuiet.2.1 :=
  (protection_exit_C6_amended quietEnv 2 sOnline protoOutQuiet rfl).1
    (Or.inr (by decide))

/-- Prefixed outputs do not disturb a trailing proximity notification. -/
theorem endsWithNotify_append (xs l : List Out) (h : endsWithNotify l = true) :
    endsWithNotify (xs ++ l) = true := by
  induction xs with
  | nil => simpa using h
  | cons x xs ih =>
    have hne : xs ++ l ≠ [] := by
      intro hc
      rcases List.append_eq_nil.mp hc with ⟨h1, h2⟩
      rw [h2] at h
      simp [endsWithNotify] at h
    cases hxl : xs ++ l with
    | nil => exact absurd hxl hne
    | cons y t =>
      have hstep : endsWithNotify (x :: y :: t) = endsWithNotify (y :: t) := rfl
      rw [List.cons_append, hxl, hstep, ← hxl]
      exact ih

/-- If some entity in the scanned list is a non-whitelisted player other than
this slot's own identity and sits within the emergency distance, then the
scan ends in the stopped state (handle dropped, `offline`, manual-stop flag
set) and its final emitted output is the emergency notification — whatever
the state's `protectionEnabled` flag says. -/
theorem scanEntities_emergency (cfg : Config) (now : Nat) (selfPos : Vec3)
    (l : List Entity) (s : BotState) (e : Entity) (he : e ∈ l)
    (het : e.etype = "player") (hne : e.username ≠ cfg.username)
    (hw : isWhitelisted cfg e.username = false) (pos : Vec3)
    (hpos : e.position = some pos)
    (hd : distLE selfPos pos (effEmergencyDistance cfg) = true) :
    (scanEntities cfg now selfPos l s).1.status = .offline ∧
    (scanEntities cfg now selfPos l s).1.bot = false ∧
    (scanEntities cfg now selfPos l s).1.isManuallyStopped = true ∧
    endsWithNotify (scanEntities cfg now selfPos l s).2 = true := by
  induction he generalizing s with
  | head rest =>
    refine ⟨?_, ?_, ?_, ?_⟩ <;>
      simp [scanEntities, het, hne, hw, hpos, hd, stop, cleanup, stopLobbyRetry,
        endsWithNotify]
  | tail a hmem ih =>
    rw [scanEntities]
    split
    · exact ih s
    · split
      · exact ih s
      · split
        · exact ih s
        · split
          · exact ⟨rfl, rfl, rfl, rfl⟩
          · split
            · split
              · refine ⟨(ih _).1, (ih _).2.1, (ih _).2.2.1, ?_⟩
                exact endsWithNotify_append _ _ (ih _).2.2.2
              · exact ih s
            · exact ih s

/-- C1: on a proximity-scan tick taken while online, not paused and not in
lobby mode, a non-whitelisted player other than the slot's own identity at a
distance within `emergencyDistance` makes the supervisor notify observers
and `stop()` the slot, short-circuiting the rest of the scan (the emergency
notification is the final output).  The state's `protectionEnabled` flag is
left fully unconstrained, so this holds whether protection is enabled or
not. -/
theorem proximity_emergency_stop_C1 (cfg : Config) (now : Nat) (selfPos : Vec3)
    (entities : List Entity) (s : BotState)
    (hb : s.bot = true) (ho : s.status = .online) (hp : s.isPaused = false)
    (hl : s.isInLobby = false)
    (e : Entity) (he : e ∈ entities) (het : e.etype = "player")
    (hne : e.username ≠ cfg.username)
    (hw : isWhitelisted cfg e.username = false) (pos : Vec3)
    (hpos : e.position = some pos)
    (hd : distLE selfPos pos (effEmergencyDistance cfg) = true) :
    (proximityTick cfg now selfPos entities s).1.status = .offline ∧
    (proximityTick cfg now selfPos entities s).1.bot = false ∧
    (proximityTick cfg now selfPos entities s).1.isManuallyStopped = true ∧
    endsWithNotify (proximityTick cfg now selfPos entities s).2 = true := by
  have h := scanEntities_emergency cfg now selfPos entities s e he het hne hw pos hpos hd
  unfold proximityTick
  rw [if_neg (by simp [hb, ho, hp, hl])]
  exact h

/-- Witness for C1: with protection enabled, an intruding player five blocks
away (inside the default 10-block emergency distance) stops the slot within
the tick, with the notification as the last output. -/
theorem proximity_emergency_stop_C1_witness :
    (proximityTick cfg0 1000 ⟨0, 0, 0⟩ [⟨"player", "Intruder", some ⟨3, 4, 0⟩⟩]
      { sOnline with protectionEnabled := true }).1.status = .offline ∧
    (proximityTick cfg0 1000 ⟨0, 0, 0⟩ [⟨"player", "Intruder", some ⟨3, 4, 0⟩⟩]
      { sOnline with protectionEnabled := true }).1.bot = false ∧
    (proximityTick cfg0 1000 ⟨0, 0, 0⟩ [⟨"player", "Intruder", some ⟨3, 4, 0⟩⟩]
      { sOnline with protectionEnabled := true }).1.isManuallyStopped = true ∧
    endsWithNotify (proximityTick cfg0 1000 ⟨0, 0, 0⟩
      [⟨"player", "Intruder", some ⟨3, 4, 0⟩⟩]
      { sOnline with protectionEnabled := true }).2 = true :=
  proximity_emergency_stop_C1 cfg0 1000 ⟨0, 0, 0⟩ _ _ rfl rfl rfl rfl
    ⟨"player", "Intruder", some ⟨3, 4, 0⟩⟩ (List.mem_singleton.mpr rfl) rfl
    (by decide) (by decide) ⟨3, 4, 0⟩ rfl (by decide)

end AFKBot
